import Mathlib

set_option maxRecDepth 1000000
set_option maxHeartbeats 4000000

/-!
Verification of the one-time print-job authorization core of the `genesis`
repository.

The embedded code:
* the `print_jobs` data model and the PL/pgSQL function `verify_otp`
  (migration file, `src/unnamed/part_000`), embedded as a pure transition
  function on an optional job record — faithful because `verify_otp` runs as
  one transaction holding `FOR UPDATE` on the single row it touches, so a
  sequential small-step semantics is exact;
* the server-side digest `hash_otp` (`encode(sha256(x::bytea),'hex')`) and the
  client-side digest `hashOTP` (`crypto.subtle.digest('SHA-256', utf8)` then
  per-byte `toString(16).padStart(2,'0')`), both over a single executable
  FIPS 180-4 SHA-256 on byte lists;
* the `print-stream` edge function (`src/supabase/functions/print-stream/index.ts`),
  embedded as a pure function of the parsed request and a backend oracle
  (job lookup by id, storage download by path).
-/

namespace Genesis

/-! ## Data model: `print_job_status` and the `print_jobs` row (part_000:1-34) -/

/-- The SQL enum `print_job_status` (part_000:2). -/
inductive PrintJobStatus where
  | pending
  | printed
  | expired
  | locked
deriving DecidableEq, Repr

/-- One row of `public.print_jobs` (part_000:5-34).  UUID columns are
modelled as `Nat`, `TIMESTAMP WITH TIME ZONE` as `Int` (an instant on a
linear clock), `INTEGER` counters as `Nat` (they start at 0 and are only
ever incremented). -/
structure Job where
  id : Nat
  file_name : String
  file_path : String
  file_type : String
  copies : Nat
  color_mode : String
  paper_size : String
  orientation : String
  otp_hash : String
  otp_plain : String
  access_token : Nat
  status : PrintJobStatus
  otp_attempts : Nat
  max_otp_attempts : Nat
  created_at : Int
  expires_at : Int
  printed_at : Option Int
  session_id : Nat
deriving DecidableEq, Repr

/-! ## JSONB values, for the results `jsonb_build_object(...)` returns -/

/-- A scalar JSONB value as `verify_otp` builds them: booleans, strings and
integers (part_000:101,132-139,156). -/
inductive JVal where
  | jBool : Bool → JVal
  | jStr : String → JVal
  | jNat : Nat → JVal
  | jInt : Int → JVal
deriving DecidableEq, Repr

/-- A JSONB object built by `jsonb_build_object`, as its key/value pairs in
construction order (all the objects the code builds have distinct keys). -/
abbrev JObj := List (String × JVal)

/-! ## SHA-256 (FIPS 180-4) over byte lists

Both digest implementations in the repository are SHA-256 of the UTF-8 bytes
of the secret followed by lowercase hex encoding; this is the hash they call.
Words are `Nat` kept below `2 ^ 32` by explicit reduction. -/

/-- The word modulus `2 ^ 32`. -/
def w32 : Nat := 4294967296

/-- Rotate a 32-bit word right by `n`. -/
def rotr32 (n x : Nat) : Nat := ((x >>> n) ||| (x <<< (32 - n))) % w32

/-- Lowercase small sigma 0: `rotr 7 xor rotr 18 xor shr 3`. -/
def ssig0 (x : Nat) : Nat := (rotr32 7 x) ^^^ (rotr32 18 x) ^^^ (x >>> 3)

/-- Lowercase small sigma 1: `rotr 17 xor rotr 19 xor shr 10`. -/
def ssig1 (x : Nat) : Nat := (rotr32 17 x) ^^^ (rotr32 19 x) ^^^ (x >>> 10)

/-- Uppercase big sigma 0: `rotr 2 xor rotr 13 xor rotr 22`. -/
def bsig0 (x : Nat) : Nat := (rotr32 2 x) ^^^ (rotr32 13 x) ^^^ (rotr32 22 x)

/-- Uppercase big sigma 1: `rotr 6 xor rotr 11 xor rotr 25`. -/
def bsig1 (x : Nat) : Nat := (rotr32 6 x) ^^^ (rotr32 11 x) ^^^ (rotr32 25 x)

/-- Choice function `Ch(x,y,z)`; 32-bit complement via xor with all-ones. -/
def chF (x y z : Nat) : Nat := (x &&& y) ^^^ ((x ^^^ 4294967295) &&& z)

/-- Majority function `Maj(x,y,z)`. -/
def majF (x y z : Nat) : Nat := (x &&& y) ^^^ (x &&& z) ^^^ (y &&& z)

/-- The 64 SHA-256 round constants (decimal). -/
def K256 : List Nat :=
  [1116352408, 1899447441, 3049323471, 3921009573, 961987163,
   1508970993, 2453635748, 2870763221, 3624381080, 310598401,
   607225278, 1426881987, 1925078388, 2162078206, 2614888103,
   3248222580, 3835390401, 4022224774, 264347078, 604807628,
   770255983, 1249150122, 1555081692, 1996064986, 2554220882,
   2821834349, 2952996808, 3210313671, 3336571891, 3584528711,
   113926993, 338241895, 666307205, 773529912, 1294757372,
   1396182291, 1695183700, 1986661051, 2177026350, 2456956037,
   2730485921, 2820302411, 3259730800, 3345764771, 3516065817,
   3600352804, 4094571909, 275423344, 430227734, 506948616,
   659060556, 883997877, 958139571, 1322822218, 1537002063,
   1747873779, 1955562222, 2024104815, 2227730452, 2361852424,
   2428436474, 2756734187, 3204031479, 3329325298]

/-- The initial SHA-256 hash state (decimal). -/
def H256 : List Nat :=
  [1779033703, 3144134277, 1013904242, 2773480762,
   1359893119, 2600822924, 528734635, 1541459225]

/-- The `k` big-endian bytes of `n` (most significant first). -/
def toBytesBE : Nat → Nat → List Nat
  | 0, _ => []
  | k + 1, n => toBytesBE k (n / 256) ++ [n % 256]

/-- FIPS padding: append `0x80`, zeros to 56 mod 64, then the bit length as
8 big-endian bytes. -/
def padMessage (msg : List Nat) : List Nat :=
  let padZeros := (120 - ((msg.length + 1) % 64)) % 64
  msg ++ 0x80 :: List.replicate padZeros 0 ++ toBytesBE 8 (8 * msg.length)

/-- Split a byte list into 64-byte blocks (structural recursion on a fuel
bound so the kernel can reduce it; `bs.length` fuel always suffices since a
nonempty list loses at least one element per step). -/
def toBlocksAux : Nat → List Nat → List (List Nat)
  | 0, _ => []
  | _, [] => []
  | fuel + 1, bs => bs.take 64 :: toBlocksAux fuel (bs.drop 64)

/-- Split a byte list into 64-byte blocks. -/
def toBlocks (bs : List Nat) : List (List Nat) := toBlocksAux bs.length bs

/-- Assemble big-endian 32-bit words from bytes. -/
def bytesToWords : List Nat → List Nat
  | a :: b :: c :: d :: rest =>
      (((a * 256 + b) * 256 + c) * 256 + d) :: bytesToWords rest
  | _ => []

/-- The 64-entry message schedule of one block. -/
def msgSchedule (block : List Nat) : Array Nat :=
  (List.range 48).foldl
    (fun w i =>
      let t := i + 16
      w.push ((ssig1 (w.getD (t - 2) 0) + w.getD (t - 7) 0 +
               ssig0 (w.getD (t - 15) 0) + w.getD (t - 16) 0) % w32))
    (bytesToWords block).toArray

/-- One compression round on the 8-word working state. -/
def compressRound (k w : Nat) : List Nat → List Nat
  | [a, b, c, d, e, f, g, h] =>
      let t1 := (h + bsig1 e + chF e f g + k + w) % w32
      let t2 := (bsig0 a + majF a b c) % w32
      [(t1 + t2) % w32, a, b, c, (d + t1) % w32, e, f, g]
  | s => s

/-- Compress one 64-byte block into the hash state. -/
def compressBlock (hstate block : List Nat) : List Nat :=
  let ws := msgSchedule block
  let fin := (List.range 64).foldl
    (fun s i => compressRound (K256.getD i 0) (ws.getD i 0) s) hstate
  List.zipWith (fun a b => (a + b) % w32) hstate fin

/-- SHA-256 of a byte list, as its 32 digest bytes. -/
def sha256Bytes (msg : List Nat) : List Nat :=
  ((toBlocks (padMessage msg)).foldl compressBlock H256).flatMap (toBytesBE 4)

/-! ## UTF-8 and the two hex encoders -/

/-- UTF-8 encoding of one character (what both `TextEncoder` and the
Postgres `::bytea` cast of UTF-8 text produce). -/
def utf8Encode (c : Char) : List Nat :=
  let n := c.toNat
  if n < 0x80 then [n]
  else if n < 0x800 then
    [0xC0 ||| (n >>> 6), 0x80 ||| (n &&& 0x3F)]
  else if n < 0x10000 then
    [0xE0 ||| (n >>> 12), 0x80 ||| ((n >>> 6) &&& 0x3F), 0x80 ||| (n &&& 0x3F)]
  else
    [0xF0 ||| (n >>> 18), 0x80 ||| ((n >>> 12) &&& 0x3F),
     0x80 ||| ((n >>> 6) &&& 0x3F), 0x80 ||| (n &&& 0x3F)]

/-- The UTF-8 bytes of a string. -/
def strBytes (s : String) : List Nat := s.data.flatMap utf8Encode

/-- One lowercase hex digit. -/
def hexDigit (n : Nat) : Char := "0123456789abcdef".data.getD n '0'

/-- Postgres `encode(bytea,'hex')` writes each byte as two nibble digits. -/
def pgHexByte (b : Nat) : String := String.mk [hexDigit (b / 16), hexDigit (b % 16)]

/-- Postgres `encode(bytea,'hex')` over a byte list. -/
def pgEncodeHex (bs : List Nat) : String := String.join (bs.map pgHexByte)

/-- JavaScript `b.toString(16).padStart(2,'0')` for one byte: lowercase hex
without leading zeros (`Nat.toDigits 16`), left-padded to two characters. -/
def jsHexByte (b : Nat) : String :=
  let ds := Nat.toDigits 16 b
  String.mk (if ds.length < 2 then '0' :: ds else ds)

/-- The client hex pipeline `hashArray.map(b => ...).join('')`
(part_001 `hashOTP`, lines 35-36). -/
def jsEncodeHex (bs : List Nat) : String := String.join (bs.map jsHexByte)

/-- Server-side digest `public.hash_otp` (part_000:78-84):
`encode(sha256(otp_value::bytea), 'hex')`. -/
def hash_otp (otp_value : String) : String :=
  pgEncodeHex (sha256Bytes (strBytes otp_value))

/-- Client-side digest `hashOTP` (part_001:31-37): UTF-8 encode, SHA-256 via
WebCrypto, then per-byte `toString(16).padStart(2,'0')` joined. -/
def hashOTP (otp : String) : String :=
  jsEncodeHex (sha256Bytes (strBytes otp))

/-! ## The verification procedure `public.verify_otp` (part_000:87-161)

The PL/pgSQL function runs as one transaction and takes `FOR UPDATE` on the
single row it reads (part_000:98), so concurrent calls on one job serialize
and a pure function from the locked row to the updated row plus the returned
JSONB is an exact model.  `job_record` is the selected row (`none` when
`NOT FOUND`); `now` is the transaction clock `now()`; `new_uuid` is the value
`gen_random_uuid()` produces for the token rotation on the success path. -/

/-- The procedure `verify_otp(job_id, provided_otp)`: returns the updated row (the one
committed by the transaction) and the JSONB result.  Each branch mirrors the
source in order: NOT FOUND (100-102), printed (105-107), locked (109-111),
expired status (113-115), lazy expiry `expires_at < now()` (117-121), digest
match (124-139), failed attempt (140-159). -/
def verify_otp (job_record : Option Job) (provided_otp : String) (now : Int)
    (new_uuid : Nat) : Option Job × JObj :=
  match job_record with
  | none => (none, [("success", .jBool false), ("error", .jStr "Job not found")])
  | some j =>
    if j.status = .printed then
      (some j, [("success", .jBool false), ("error", .jStr "Already printed")])
    else if j.status = .locked then
      (some j,
       [("success", .jBool false), ("error", .jStr "Job locked due to failed attempts")])
    else if j.status = .expired then
      (some j, [("success", .jBool false), ("error", .jStr "Job has expired")])
    else if j.expires_at < now then
      (some { j with status := .expired },
       [("success", .jBool false), ("error", .jStr "Job has expired")])
    else if hash_otp provided_otp = j.otp_hash then
      (some { j with status := .printed, printed_at := some now, access_token := new_uuid },
       [("success", .jBool true),
        ("file_path", .jStr j.file_path),
        ("copies", .jNat j.copies),
        ("color_mode", .jStr j.color_mode),
        ("paper_size", .jStr j.paper_size),
        ("orientation", .jStr j.orientation)])
    else
      let updated : Job :=
        { j with
          otp_attempts := j.otp_attempts + 1,
          status := if j.otp_attempts + 1 ≥ j.max_otp_attempts then .locked else j.status }
      if j.otp_attempts + 1 ≥ j.max_otp_attempts then
        (some updated,
         [("success", .jBool false), ("error", .jStr "Too many attempts. Job locked.")])
      else
        (some updated,
         [("success", .jBool false), ("error", .jStr "Invalid OTP"),
          ("attempts_remaining",
           .jInt ((j.max_otp_attempts : Int) - (j.otp_attempts : Int) - 1))])

/-- One client call to `verify_otp`: the provided secret, the transaction
clock, and the UUID drawn on the success path. -/
structure Call where
  provided_otp : String
  now : Int
  new_uuid : Nat
deriving DecidableEq, Repr

/-- Run a sequence of `verify_otp` calls against one job, collecting the
returned JSONB results in order. -/
def runCalls (job : Option Job) : List Call → Option Job × List JObj
  | [] => (job, [])
  | c :: rest =>
    let step := verify_otp job c.provided_otp c.now c.new_uuid
    let next := runCalls step.1 rest
    (next.1, step.2 :: next.2)

/-- All states a sequence of calls drives the job through, the initial one
included. -/
def runStates (job : Option Job) : List Call → List (Option Job)
  | [] => [job]
  | c :: rest => job :: runStates (verify_otp job c.provided_otp c.now c.new_uuid).1 rest

/-! ## The `print-stream` edge function
(`src/supabase/functions/print-stream/index.ts`)

The handler is stateless: it parses the request body, validates `filePath`
and `jobId`, re-loads the job row by id (selecting `status, file_path`),
requires `status = 'printed'`, downloads the file, and builds the print
HTML.  It is embedded as a pure function of the parsed request and a backend
oracle giving the job lookup by id and the storage download by path. -/

/-- The row the handler selects: `select('status, file_path')` (index.ts:34). -/
structure JobRow where
  status : PrintJobStatus
  file_path : String
deriving DecidableEq, Repr

/-- The backend the handler consults: job lookup by id (`none` models
`jobError || !job`, index.ts:38) and storage download by path (`none` models
`downloadError || !fileData`, index.ts:58). -/
structure Backend where
  jobs : String → Option JobRow
  storage : String → Option (List Nat)

/-- The JSON fields the handler destructures from the request body
(index.ts:16).  A field JavaScript would see as absent, null or the empty
string — all falsy for the `!filePath || !jobId` check — is modelled as the
empty string. -/
structure RenderRequest where
  filePath : String
  copies : Nat
  colorMode : String
  paperSize : String
  orientation : String
  jobId : String
deriving DecidableEq, Repr

/-- An HTTP response: the status code and the JSON body the handler
stringifies (always a one-key object: `error` or `html`). -/
structure HttpResponse where
  status : Nat
  body : JObj
deriving DecidableEq, Repr

/-- The base64 alphabet used by `btoa`. -/
def b64c (n : Nat) : Char :=
  "ABCDEFGHIJKLMNOPQRSTUVWXYZabcdefghijklmnopqrstuvwxyz0123456789+/".data.getD n 'A'

/-- JavaScript `btoa(String.fromCharCode(...bytes))`: standard base64 with padding
(index.ts:80,92). -/
def base64Encode : List Nat → List Char
  | [] => []
  | [a] => [b64c (a / 4), b64c (a % 4 * 16), '=', '=']
  | [a, b] => [b64c (a / 4), b64c (a % 4 * 16 + b / 16), b64c (b % 16 * 4), '=']
  | a :: b :: c :: rest =>
      b64c (a / 4) :: b64c (a % 4 * 16 + b / 16) :: b64c (b % 16 * 4 + c / 64) ::
        b64c (c % 64) :: base64Encode rest

/-- The `btoa` output as a string. -/
def btoaBytes (bs : List Nat) : String := String.mk (base64Encode bs)

/-- The watermark line (index.ts:72):
`Job: ${jobId.slice(0, 8)} | Printed: ${timestamp} | ONE-TIME PRINT`. -/
def watermarkText (jobId nowIso : String) : String :=
  "Job: " ++ jobId.take 8 ++ " | Printed: " ++ nowIso ++ " | ONE-TIME PRINT"

/-- The per-copy content block (index.ts:75-100): an `img` embedding for
images, an `iframe` embedding for PDFs, empty otherwise; images are checked
first, exactly as in the source. -/
def contentHtmlFun (filePath : String) (fileData : List Nat)
    (jobId nowIso : String) : String :=
  let lower := filePath.toLower
  let isPDF := lower.endsWith ".pdf"
  let isImage := lower.endsWith ".jpg" || lower.endsWith ".jpeg" || lower.endsWith ".png"
  if isImage then
    let mimeType := if lower.endsWith ".png" then "image/png" else "image/jpeg"
    "\n        <div class=\"page\">\n          <img src=\"data:" ++ mimeType ++
      ";base64," ++ btoaBytes fileData ++ "\" alt=\"Print content\" />\n" ++
      "          <div class=\"watermark\">" ++ watermarkText jobId nowIso ++
      "</div>\n        </div>\n      "
  else if isPDF then
    "\n        <div class=\"page pdf-page\">\n          <iframe src=\"data:application/pdf;base64," ++
      btoaBytes fileData ++
      "\" type=\"application/pdf\" width=\"100%\" height=\"100%\" frameborder=\"0\"></iframe>\n" ++
      "          <div class=\"watermark\">" ++ watermarkText jobId nowIso ++
      "</div>\n        </div>\n      "
  else ""

/-- The copies loop (index.ts:103-109): the content block `copies` times with
a page-break marker between consecutive copies. -/
def copiesHtmlFun (contentHtml : String) (copies : Nat) : String :=
  String.join ((List.range copies).map fun i =>
    contentHtml ++ if i < copies - 1 then "<div class=\"page-break\"></div>" else "")

/-- The paper-size table (index.ts:112-117): width and height per name. -/
def paperSizes (name : String) : Option (String × String) :=
  if name = "A4" then some ("210mm", "297mm")
  else if name = "A3" then some ("297mm", "420mm")
  else if name = "Letter" then some ("8.5in", "11in")
  else if name = "Legal" then some ("8.5in", "14in")
  else none

/-- The full generated document (index.ts:123-232); `@page` takes the
dimensions transposed for landscape, and the grayscale filter lines are
emitted exactly when `colorMode === 'bw'`. -/
def printHtml (req : RenderRequest) (fileData : List Nat) (nowIso : String) : String :=
  let contentHtml := contentHtmlFun req.filePath fileData req.jobId nowIso
  let copiesHtml := copiesHtmlFun contentHtml req.copies
  let paperDimensions := (paperSizes req.paperSize).getD ("210mm", "297mm")
  let isLandscape := req.orientation = "landscape"
  let sizeA := if isLandscape then paperDimensions.2 else paperDimensions.1
  let sizeB := if isLandscape then paperDimensions.1 else paperDimensions.2
  let gray := if req.colorMode = "bw" then "filter: grayscale(100%);" else ""
  "\n<!DOCTYPE html>\n<html>\n<head>\n  <meta charset=\"utf-8\">\n" ++
  "  <title>SecurePrint - One-Time Print</title>\n  <style>\n" ++
  "    * \x7b\n      margin: 0;\n      padding: 0;\n      box-sizing: border-box;\n    \x7d\n    \n" ++
  "    @page \x7b\n      size: " ++ sizeA ++ " " ++ sizeB ++ ";\n      margin: 10mm;\n    \x7d\n    \n" ++
  "    @media print \x7b\n      body \x7b\n        -webkit-print-color-adjust: exact !important;\n" ++
  "        print-color-adjust: exact !important;\n        " ++ gray ++ "\n      \x7d\n      \n" ++
  "      .page-break \x7b\n        page-break-after: always;\n      \x7d\n    \x7d\n    \n" ++
  "    body \x7b\n      font-family: Arial, sans-serif;\n      background: white;\n      " ++
  gray ++ "\n    \x7d\n    \n" ++
  "    .page \x7b\n      position: relative;\n      width: 100%;\n      min-height: 100vh;\n" ++
  "      display: flex;\n      align-items: center;\n      justify-content: center;\n" ++
  "      padding: 20px;\n    \x7d\n    \n" ++
  "    .pdf-page \x7b\n      height: 100vh;\n    \x7d\n    \n" ++
  "    .pdf-page iframe \x7b\n      width: 100%;\n      height: 100%;\n      border: none;\n    \x7d\n    \n" ++
  "    .page img \x7b\n      max-width: 100%;\n      max-height: calc(100vh - 60px);\n" ++
  "      object-fit: contain;\n    \x7d\n    \n" ++
  "    .watermark \x7b\n      position: fixed;\n      bottom: 5mm;\n      left: 0;\n      right: 0;\n" ++
  "      text-align: center;\n      font-size: 8pt;\n      color: rgba(0, 0, 0, 0.3);\n" ++
  "      font-family: monospace;\n      pointer-events: none;\n    \x7d\n    \n" ++
  "    .page-break \x7b\n      page-break-after: always;\n      height: 0;\n    \x7d\n    \n" ++
  "    /* Prevent saving/copying */\n    body \x7b\n      user-select: none;\n" ++
  "      -webkit-user-select: none;\n    \x7d\n    \n" ++
  "    img \x7b\n      pointer-events: none;\n    \x7d\n  </style>\n</head>\n" ++
  "<body oncontextmenu=\"return false;\" ondragstart=\"return false;\">\n  " ++ copiesHtml ++
  "\n  <script>\n    // Do not auto-print to avoid conflicts with client-side trigger\n" ++
  "    // The client will call window.print() when ready\n    \n" ++
  "    // Prevent keyboard shortcuts\n" ++
  "    document.addEventListener('keydown', function(e) \x7b\n" ++
  "      if ((e.ctrlKey || e.metaKey) && (e.key === 's' || e.key === 'p' || e.key === 'c')) \x7b\n" ++
  "        // Allow print\n        if (e.key !== 'p') \x7b\n          e.preventDefault();\n" ++
  "          return false;\n        \x7d\n      \x7d\n    \x7d);\n  </script>\n</body>\n</html>\n"

/-- The `print-stream` request handler (index.ts:9-256).  `parsed = none`
models a body `req.json()` failed to parse, which the catch block turns into
a 500 (index.ts:249-255).  In order: the `!filePath || !jobId` validation
(18-23), the job re-load by id (32-43), the `status !== 'printed'` check
(46-51), the storage download (54-64), and the 200 response carrying the
generated HTML (234-247). -/
def printStream (parsed : Option RenderRequest) (be : Backend) (nowIso : String) :
    HttpResponse :=
  match parsed with
  | none => { status := 500, body := [("error", .jStr "Internal server error")] }
  | some req =>
    if req.filePath = "" ∨ req.jobId = "" then
      { status := 400, body := [("error", .jStr "Missing required parameters")] }
    else
      match be.jobs req.jobId with
      | none => { status := 404, body := [("error", .jStr "Job not found")] }
      | some job =>
        if job.status ≠ .printed then
          { status := 403, body := [("error", .jStr "Invalid job status")] }
        else
          match be.storage req.filePath with
          | none => { status := 500, body := [("error", .jStr "Failed to retrieve file")] }
          | some fileData =>
            { status := 200, body := [("html", .jStr (printHtml req fileData nowIso))] }

/-! ## Further definitions used by the statements -/

/-- The attempt-counter invariant maintained by `verify_otp`: the counter
never passes the ceiling, and a still-pending job is strictly below it (the
attempt that reaches the ceiling locks the job in the same write,
part_000:142-148). -/
def JobInv (j : Job) : Prop :=
  j.otp_attempts ≤ j.max_otp_attempts ∧
  (j.status = .pending → j.otp_attempts < j.max_otp_attempts)

instance (j : Job) : Decidable (JobInv j) := by unfold JobInv; infer_instance

/-- The five bodies the handler can return on a non-200 path
(index.ts:20,40,48,61,252): fixed constants carrying no file data. -/
def errorBodies : List JObj :=
  [[("error", .jStr "Internal server error")],
   [("error", .jStr "Missing required parameters")],
   [("error", .jStr "Job not found")],
   [("error", .jStr "Invalid job status")],
   [("error", .jStr "Failed to retrieve file")]]

/-- Replace the character at index `i` of a string. -/
def mutateAt (s : String) (i : Nat) (c : Char) : String := String.mk (s.data.set i c)

/-- The row committed by the success branch (part_000:126-130): status
printed, `printed_at = now()`, and the capability token replaced by the
freshly generated UUID. -/
def printedRow (j : Job) (n : Int) (u : Nat) : Job :=
  { j with status := .printed, printed_at := some n, access_token := u }

/-- A concrete pending job for concrete runs: secret "123456" (its digest,
as the creating client stores it, is `hash_otp "123456"`), attempt ceiling
3, expiry at time 1800. -/
def jobW : Job :=
  { id := 1, file_name := "doc.pdf", file_path := "sess/doc.pdf",
    file_type := "application/pdf", copies := 2, color_mode := "color",
    paper_size := "A4", orientation := "portrait",
    otp_hash := hash_otp "123456", otp_plain := "123456", access_token := 7,
    status := .pending, otp_attempts := 0, max_otp_attempts := 3,
    created_at := 0, expires_at := 1800, printed_at := none, session_id := 5 }

/-- A concrete pending job whose stored digest column holds a 13-character
placeholder: since every SHA-256 hex digest has 64 characters, every
provided secret is a wrong secret for this job. -/
def jobX : Job :=
  { jobW with id := 2, otp_hash := "stored-digest", otp_plain := "" }

/-- A concrete well-formed render request. -/
def reqW : RenderRequest :=
  { filePath := "sess/doc.pdf", copies := 2, colorMode := "color",
    paperSize := "A4", orientation := "portrait", jobId := "job1" }

/-- A backend with no jobs and no files. -/
def beEmpty : Backend := { jobs := fun _ => none, storage := fun _ => none }

/-- A backend holding exactly one printed job and its file. -/
def bePrinted : Backend :=
  { jobs := fun i => if i = "job1" then some { status := .printed, file_path := "sess/doc.pdf" } else none,
    storage := fun p => if p = "sess/doc.pdf" then some [37, 80, 68, 70] else none }

/-! ## Helper lemmas on `verify_otp` -/

/-- The JSONB result of the `status = 'printed'` early return (part_000:105-107). -/
def alreadyPrintedObj : JObj :=
  [("success", .jBool false), ("error", .jStr "Already printed")]

/-- The JSONB result of the `status = 'locked'` early return (part_000:109-111). -/
def lockedObj : JObj :=
  [("success", .jBool false), ("error", .jStr "Job locked due to failed attempts")]

/-- The JSONB result of both expiry returns (part_000:113-121). -/
def expiredObj : JObj :=
  [("success", .jBool false), ("error", .jStr "Job has expired")]

/-- The success JSONB (part_000:132-139). -/
def successObj (j : Job) : JObj :=
  [("success", .jBool true),
   ("file_path", .jStr j.file_path),
   ("copies", .jNat j.copies),
   ("color_mode", .jStr j.color_mode),
   ("paper_size", .jStr j.paper_size),
   ("orientation", .jStr j.orientation)]

theorem verify_otp_printed (j : Job) (p : String) (n : Int) (u : Nat)
    (h : j.status = .printed) :
    verify_otp (some j) p n u = (some j, alreadyPrintedObj) := by
  simp [verify_otp, h, alreadyPrintedObj]

theorem verify_otp_locked (j : Job) (p : String) (n : Int) (u : Nat)
    (h : j.status = .locked) :
    verify_otp (some j) p n u = (some j, lockedObj) := by
  simp [verify_otp, h, lockedObj]

theorem verify_otp_expired_status (j : Job) (p : String) (n : Int) (u : Nat)
    (h : j.status = .expired) :
    verify_otp (some j) p n u = (some j, expiredObj) := by
  simp [verify_otp, h, expiredObj]

/-- The lazy-expiry branch (part_000:117-121): pending status, expiry passed. -/
theorem verify_otp_lazy_expiry (j : Job) (p : String) (n : Int) (u : Nat)
    (hpend : j.status = .pending) (hexp : j.expires_at < n) :
    verify_otp (some j) p n u = (some { j with status := .expired }, expiredObj) := by
  simp [verify_otp, hpend, hexp, expiredObj]

/-- The success branch (part_000:124-139): pending, unexpired, digest match. -/
theorem verify_otp_success (j : Job) (p : String) (n : Int) (u : Nat)
    (hpend : j.status = .pending) (hexp : ¬ j.expires_at < n)
    (hsecret : hash_otp p = j.otp_hash) :
    verify_otp (some j) p n u =
      (some { j with status := .printed, printed_at := some n, access_token := u },
       successObj j) := by
  simp [verify_otp, hpend, hexp, hsecret, successObj]

/-- The failed-attempt branch below the ceiling (part_000:152-158). -/
theorem verify_otp_wrong_below (j : Job) (p : String) (n : Int) (u : Nat)
    (hpend : j.status = .pending) (hexp : ¬ j.expires_at < n)
    (hsecret : ¬ hash_otp p = j.otp_hash)
    (hbelow : j.otp_attempts + 1 < j.max_otp_attempts) :
    verify_otp (some j) p n u =
      (some { j with otp_attempts := j.otp_attempts + 1 },
       [("success", .jBool false), ("error", .jStr "Invalid OTP"),
        ("attempts_remaining",
         .jInt ((j.max_otp_attempts : Int) - (j.otp_attempts : Int) - 1))]) := by
  have hnotge : ¬ j.otp_attempts + 1 ≥ j.max_otp_attempts := Nat.not_le.mpr hbelow
  simp [verify_otp, hpend, hexp, hsecret, hnotge]

/-- The failed attempt that reaches the ceiling (part_000:142-151). -/
theorem verify_otp_wrong_reaches (j : Job) (p : String) (n : Int) (u : Nat)
    (hpend : j.status = .pending) (hexp : ¬ j.expires_at < n)
    (hsecret : ¬ hash_otp p = j.otp_hash)
    (hge : j.otp_attempts + 1 ≥ j.max_otp_attempts) :
    verify_otp (some j) p n u =
      (some { j with otp_attempts := j.otp_attempts + 1, status := .locked },
       [("success", .jBool false), ("error", .jStr "Too many attempts. Job locked.")]) := by
  simp [verify_otp, hpend, hexp, hsecret, hge]

/-- Any non-pending status is terminal for a single call: the committed row
is the row that was read. -/
theorem verify_otp_terminal (j : Job) (p : String) (n : Int) (u : Nat)
    (h : j.status ≠ .pending) :
    (verify_otp (some j) p n u).1 = some j := by
  cases hs : j.status with
  | pending => exact absurd hs h
  | printed => rw [verify_otp_printed j p n u hs]
  | expired => rw [verify_otp_expired_status j p n u hs]
  | locked => rw [verify_otp_locked j p n u hs]

/-- A job in a non-pending status is left untouched by any sequence of calls. -/
theorem runCalls_terminal (j : Job) (h : j.status ≠ .pending) :
    ∀ calls : List Call, (runCalls (some j) calls).1 = some j := by
  intro calls
  induction calls with
  | nil => rfl
  | cons c rest ih =>
    simp only [runCalls]
    rw [verify_otp_terminal j c.provided_otp c.now c.new_uuid h]
    exact ih

/-- A printed job answers every later call with the `Already printed` JSONB. -/
theorem runCalls_printed_results (j : Job) (h : j.status = .printed) :
    ∀ calls : List Call, ∀ r ∈ (runCalls (some j) calls).2, r = alreadyPrintedObj := by
  intro calls
  induction calls with
  | nil => intro r hr; simp [runCalls] at hr
  | cons c rest ih =>
    intro r hr
    simp only [runCalls] at hr
    rw [verify_otp_printed j c.provided_otp c.now c.new_uuid h] at hr
    rcases List.mem_cons.mp hr with h1 | h2
    · exact h1
    · exact ih r h2

/-- A call on a present row always commits a present row: no branch of
`verify_otp` deletes the record. -/
theorem verify_otp_some (j : Job) (p : String) (n : Int) (u : Nat) :
    ∃ j', (verify_otp (some j) p n u).1 = some j' := by
  simp only [verify_otp]
  split_ifs <;> exact ⟨_, rfl⟩

/-- One `verify_otp` call preserves the attempt-counter invariant. -/
theorem verify_otp_preserves_inv (j : Job) (p : String) (n : Int) (u : Nat)
    (hinv : JobInv j) :
    ∀ j', (verify_otp (some j) p n u).1 = some j' → JobInv j' := by
  intro j' hj'
  cases hs : j.status with
  | printed =>
    rw [verify_otp_printed j p n u hs] at hj'
    cases hj'; exact hinv
  | locked =>
    rw [verify_otp_locked j p n u hs] at hj'
    cases hj'; exact hinv
  | expired =>
    rw [verify_otp_expired_status j p n u hs] at hj'
    cases hj'; exact hinv
  | pending =>
    by_cases hexp : j.expires_at < n
    · rw [verify_otp_lazy_expiry j p n u hs hexp] at hj'
      cases hj'
      exact ⟨hinv.1, by simp⟩
    · by_cases hsec : hash_otp p = j.otp_hash
      · rw [verify_otp_success j p n u hs hexp hsec] at hj'
        cases hj'
        exact ⟨hinv.1, by simp⟩
      · by_cases hge : j.otp_attempts + 1 ≥ j.max_otp_attempts
        · rw [verify_otp_wrong_reaches j p n u hs hexp hsec hge] at hj'
          cases hj'
          refine ⟨?_, by simp⟩
          show j.otp_attempts + 1 ≤ j.max_otp_attempts
          exact Nat.succ_le_of_lt (hinv.2 hs)
        · rw [verify_otp_wrong_below j p n u hs hexp hsec (Nat.lt_of_not_le hge)] at hj'
          cases hj'
          have hlt := Nat.lt_of_not_le hge
          exact ⟨Nat.le_of_lt hlt, fun _ => hlt⟩

/-- The invariant holds in every state a call sequence reaches. -/
theorem runStates_inv :
    ∀ (calls : List Call) (j : Job), JobInv j →
      ∀ s ∈ runStates (some j) calls, ∀ j', s = some j' → JobInv j' := by
  intro calls
  induction calls with
  | nil =>
    intro j hinv s hs j' hj'
    simp only [runStates, List.mem_singleton] at hs
    subst hs
    cases hj'; exact hinv
  | cons c rest ih =>
    intro j hinv s hs j' hj'
    simp only [runStates, List.mem_cons] at hs
    rcases hs with rfl | hs
    · cases hj'; exact hinv
    · obtain ⟨j2, hj2⟩ := verify_otp_some j c.provided_otp c.now c.new_uuid
      rw [hj2] at hs
      exact ih j2 (verify_otp_preserves_inv j c.provided_otp c.now c.new_uuid hinv j2 hj2)
        s hs j' hj'

/-! ## Length of a digest: every `hash_otp` value has 64 characters -/

theorem toBytesBE_length (k : Nat) : ∀ n : Nat, (toBytesBE k n).length = k := by
  induction k with
  | zero => intro n; rfl
  | succ k ih => intro n; simp [toBytesBE, ih]

theorem compressRound_length (k w : Nat) (s : List Nat) :
    (compressRound k w s).length = s.length := by
  unfold compressRound
  split
  · simp_all
  · rfl

theorem compress_fold_length (l : List Nat) (ws : Array Nat) :
    ∀ s : List Nat,
      (l.foldl (fun st i => compressRound (K256.getD i 0) (ws.getD i 0) st) s).length
        = s.length := by
  induction l with
  | nil => intro s; rfl
  | cons x xs ih =>
    intro s
    rw [List.foldl_cons, ih, compressRound_length]

theorem compressBlock_length (h b : List Nat) : (compressBlock h b).length = h.length := by
  show (List.zipWith _ h _).length = h.length
  rw [List.length_zipWith, compress_fold_length, Nat.min_self]

theorem blocks_fold_length (bl : List (List Nat)) :
    ∀ h : List Nat, (bl.foldl compressBlock h).length = h.length := by
  induction bl with
  | nil => intro h; rfl
  | cons b bs ih =>
    intro h
    rw [List.foldl_cons, ih, compressBlock_length]

theorem flatMap_toBytesBE_length (l : List Nat) :
    (l.flatMap (toBytesBE 4)).length = 4 * l.length := by
  induction l with
  | nil => rfl
  | cons x xs ih =>
    simp only [List.flatMap_cons, List.length_append, toBytesBE_length, ih,
      List.length_cons]
    omega

theorem sha256Bytes_length (m : List Nat) : (sha256Bytes m).length = 32 := by
  unfold sha256Bytes
  rw [flatMap_toBytesBE_length, blocks_fold_length]
  rfl

theorem pgHexByte_length (b : Nat) : (pgHexByte b).length = 2 := rfl

theorem foldl_append_length (l : List String) :
    ∀ acc : String,
      (l.foldl (fun r s => r ++ s) acc).length = acc.length + (l.map String.length).sum := by
  induction l with
  | nil => intro acc; simp
  | cons x xs ih =>
    intro acc
    rw [List.foldl_cons, ih, String.length_append]
    simp [Nat.add_assoc]

theorem sum_map_two (bs : List Nat) : (bs.map fun _ => (2 : Nat)).sum = 2 * bs.length := by
  induction bs with
  | nil => rfl
  | cons b l ih => simp only [List.map_cons, List.sum_cons, ih, List.length_cons]; omega

theorem pgEncodeHex_length (bs : List Nat) : (pgEncodeHex bs).length = 2 * bs.length := by
  unfold pgEncodeHex String.join
  rw [foldl_append_length]
  have hmap : (bs.map pgHexByte).map String.length = bs.map fun _ => 2 := by
    rw [List.map_map]
    exact List.map_congr_left fun b _ => pgHexByte_length b
  rw [hmap, sum_map_two]
  simp

/-- Every digest `hash_otp` produces is 64 characters long. -/
theorem hash_otp_length (s : String) : (hash_otp s).length = 64 := by
  unfold hash_otp
  rw [pgEncodeHex_length, sha256Bytes_length]

/-- A string that is not 64 characters long can never equal a digest — in
particular the 13-character placeholder stored in `jobX`. -/
theorem hash_otp_ne_short (s t : String) (h : t.length ≠ 64) : hash_otp s ≠ t :=
  fun heq => h (heq ▸ hash_otp_length s)

/-! ## The claims -/

/-- C2: for every call to `verify_otp`, with any job row and any provided
secret, the `file_path` key appears in the returned JSONB only in the single
success branch: any result that does not carry `success = true` carries no
`file_path` field. -/
theorem verify_locator_only_on_success (job : Option Job) (p : String) (n : Int) (u : Nat) :
    List.lookup "success" (verify_otp job p n u).2 = some (.jBool true) ∨
    List.lookup "file_path" (verify_otp job p n u).2 = none := by
  cases job with
  | none => right; rfl
  | some j =>
    cases hs : j.status with
    | printed => right; rw [verify_otp_printed j p n u hs]; rfl
    | locked => right; rw [verify_otp_locked j p n u hs]; rfl
    | expired => right; rw [verify_otp_expired_status j p n u hs]; rfl
    | pending =>
      by_cases hexp : j.expires_at < n
      · right; rw [verify_otp_lazy_expiry j p n u hs hexp]; rfl
      · by_cases hsec : hash_otp p = j.otp_hash
        · left; rw [verify_otp_success j p n u hs hexp hsec]; rfl
        · by_cases hge : j.otp_attempts + 1 ≥ j.max_otp_attempts
          · right; rw [verify_otp_wrong_reaches j p n u hs hexp hsec hge]; rfl
          · right; rw [verify_otp_wrong_below j p n u hs hexp hsec (Nat.lt_of_not_le hge)]; rfl

/-- C3: a pending job whose expiry has passed answers every `verify_otp`
call — whatever secret it carries, the correct one included — by committing
`status = 'expired'` and returning the `Job has expired` failure, before the
digest is ever compared; the job then stays in that expired row under any
further calls, so it can never become printed. -/
theorem verify_expiry_precedes_secret (j : Job) (p : String) (n : Int) (u : Nat)
    (hpend : j.status = .pending) (hexp : j.expires_at < n) :
    verify_otp (some j) p n u = (some { j with status := .expired }, expiredObj) ∧
    ∀ calls : List Call,
      (runCalls (some { j with status := .expired }) calls).1 =
        some { j with status := .expired } := by
  exact ⟨verify_otp_lazy_expiry j p n u hpend hexp, runCalls_terminal _ (by simp)⟩

/-- C3 witness: the concrete job `jobW` (expiry 1800), called at time 2000
with the *correct* secret "123456", becomes expired and returns the expiry
failure. -/
theorem verify_expiry_precedes_secret_witness :
    jobW.status = .pending ∧ jobW.expires_at < 2000 ∧
    verify_otp (some jobW) "123456" 2000 9 =
      (some { jobW with status := .expired }, expiredObj) := by
  exact ⟨rfl, by decide,
    (verify_expiry_precedes_secret jobW "123456" 2000 9 rfl (by decide)).1⟩

/-- C6: once a job's status is printed, expired or locked, every further
`verify_otp` call leaves the committed row exactly the row it read — status,
attempt counter and capability token included — under any sequence of calls,
so status never moves back toward pending. -/
theorem terminal_states_frozen (j : Job) (p : String) (n : Int) (u : Nat)
    (hterm : j.status = .printed ∨ j.status = .expired ∨ j.status = .locked) :
    (verify_otp (some j) p n u).1 = some j ∧
    ∀ calls : List Call, (runCalls (some j) calls).1 = some j := by
  have hne : j.status ≠ .pending := by rcases hterm with h | h | h <;> simp [h]
  exact ⟨verify_otp_terminal j p n u hne, runCalls_terminal j hne⟩

/-- C6 witness: a printed copy of `jobW` is byte-for-byte unchanged by a
further call carrying the correct secret. -/
theorem terminal_states_frozen_witness :
    ({ jobW with status := .printed } : Job).status = .printed ∧
    (verify_otp (some { jobW with status := .printed }) "123456" 100 9).1 =
      some { jobW with status := .printed } := by
  exact ⟨rfl,
    (terminal_states_frozen { jobW with status := .printed } "123456" 100 9 (Or.inl rfl)).1⟩

/-- C10: the lazy-expiry branch commits a row that differs from the one read
only in `status`: the attempt counter, capability token, secret digest, file
locator and every print parameter are unchanged by that call. -/
theorem lazy_expiry_frame (j : Job) (p : String) (n : Int) (u : Nat)
    (hpend : j.status = .pending) (hexp : j.expires_at < n) :
    (verify_otp (some j) p n u).1 = some { j with status := .expired } ∧
    ({ j with status := .expired } : Job).otp_attempts = j.otp_attempts ∧
    ({ j with status := .expired } : Job).access_token = j.access_token ∧
    ({ j with status := .expired } : Job).otp_hash = j.otp_hash ∧
    ({ j with status := .expired } : Job).file_path = j.file_path ∧
    ({ j with status := .expired } : Job).copies = j.copies ∧
    ({ j with status := .expired } : Job).color_mode = j.color_mode ∧
    ({ j with status := .expired } : Job).paper_size = j.paper_size ∧
    ({ j with status := .expired } : Job).orientation = j.orientation ∧
    ({ j with status := .expired } : Job).printed_at = j.printed_at := by
  refine ⟨?_, rfl, rfl, rfl, rfl, rfl, rfl, rfl, rfl, rfl⟩
  rw [verify_otp_lazy_expiry j p n u hpend hexp]

/-- C10 witness: the lazy-expiry commit on the concrete job `jobW` at time
2000 changes only the status field. -/
theorem lazy_expiry_frame_witness :
    jobW.status = .pending ∧ jobW.expires_at < 2000 ∧
    (verify_otp (some jobW) "000000" 2000 9).1 = some { jobW with status := .expired } ∧
    ({ jobW with status := .expired } : Job).otp_attempts = jobW.otp_attempts := by
  have h := lazy_expiry_frame jobW "000000" 2000 9 rfl (by decide)
  exact ⟨rfl, by decide, h.1, h.2.1⟩

/-- C1: on a pending, unexpired job the first `verify_otp` call with the
correct secret commits — in the one row it writes — status printed, the
printed timestamp and a rotated capability token, and returns the success
JSONB with the file locator; any sequence of further calls, the correct
secret included, leaves that row unchanged and answers only the
`Already printed` failure, which carries no `file_path` field. -/
theorem verify_success_exactly_once (j : Job) (p : String) (n : Int) (u : Nat)
    (hpend : j.status = .pending) (hexp : ¬ j.expires_at < n)
    (hsecret : hash_otp p = j.otp_hash) (hfresh : u ≠ j.access_token) :
    verify_otp (some j) p n u = (some (printedRow j n u), successObj j) ∧
    (printedRow j n u).access_token ≠ j.access_token ∧
    ∀ calls : List Call,
      (runCalls (some (printedRow j n u)) calls).1 = some (printedRow j n u) ∧
      ∀ r ∈ (runCalls (some (printedRow j n u)) calls).2,
        r = alreadyPrintedObj ∧ List.lookup "file_path" r = none := by
  refine ⟨verify_otp_success j p n u hpend hexp hsecret, hfresh, fun calls => ⟨?_, ?_⟩⟩
  · exact runCalls_terminal _ (by simp [printedRow]) calls
  · intro r hr
    have hres := runCalls_printed_results _ rfl calls r hr
    exact ⟨hres, by rw [hres]; rfl⟩

/-- C1 witness: the concrete job `jobW`, verified once with its secret
"123456" at time 100 with fresh token 9, commits the printed row with the
rotated token and returns the success JSONB. -/
theorem verify_success_exactly_once_witness :
    jobW.status = .pending ∧ ¬ jobW.expires_at < 100 ∧
    hash_otp "123456" = jobW.otp_hash ∧ (9 : Nat) ≠ jobW.access_token ∧
    verify_otp (some jobW) "123456" 100 9 = (some (printedRow jobW 100 9), successObj jobW) := by
  refine ⟨rfl, by decide, rfl, by decide, ?_⟩
  exact (verify_success_exactly_once jobW "123456" 100 9 rfl (by decide) rfl (by decide)).1

/-- C5: from a fresh pending job (zero attempts, positive ceiling), every
state any call sequence reaches keeps the attempt counter at or below the
ceiling and is never a pending state whose counter equals the ceiling —
because the failed attempt that reaches the ceiling writes the incremented
counter and `status = 'locked'` in the same committed row. -/
theorem attempts_never_exceed_ceiling (j : Job)
    (hpend : j.status = .pending) (hatt : j.otp_attempts = 0)
    (hpos : 0 < j.max_otp_attempts) :
    (∀ calls : List Call, ∀ s ∈ runStates (some j) calls, ∀ j', s = some j' →
        j'.otp_attempts ≤ j'.max_otp_attempts ∧
        ¬ (j'.otp_attempts = j'.max_otp_attempts ∧ j'.status = .pending)) ∧
    (∀ (jc : Job) (p : String) (n : Int) (u : Nat),
        jc.status = .pending → ¬ jc.expires_at < n → ¬ hash_otp p = jc.otp_hash →
        jc.otp_attempts + 1 ≥ jc.max_otp_attempts →
        (verify_otp (some jc) p n u).1 =
          some { jc with otp_attempts := jc.otp_attempts + 1, status := .locked }) := by
  constructor
  · intro calls s hs j' hj'
    have hinv : JobInv j := ⟨by omega, fun _ => by omega⟩
    have hIJ := runStates_inv calls j hinv s hs j' hj'
    exact ⟨hIJ.1, fun hc => absurd (hIJ.2 hc.2) (by omega)⟩
  · intro jc p n u h1 h2 h3 h4
    rw [verify_otp_wrong_reaches jc p n u h1 h2 h3 h4]

/-- C5 witness: `jobW` satisfies the invariant initially, and a wrong-secret
call on the two-attempt state of `jobX` commits counter 3 and `locked` in
one row. -/
theorem attempts_never_exceed_ceiling_witness :
    jobW.status = .pending ∧ jobW.otp_attempts = 0 ∧ 0 < jobW.max_otp_attempts ∧
    (jobW.otp_attempts ≤ jobW.max_otp_attempts ∧
      ¬ (jobW.otp_attempts = jobW.max_otp_attempts ∧ jobW.status = .pending)) ∧
    (verify_otp (some { jobX with otp_attempts := 2 }) "000000" 10 21).1 =
      some { jobX with otp_attempts := 3, status := .locked } := by
  have h := attempts_never_exceed_ceiling jobW rfl rfl (by decide)
  refine ⟨rfl, rfl, by decide, ?_, ?_⟩
  · exact h.1 [] (some jobW) (by simp [runStates]) jobW rfl
  · exact h.2 { jobX with otp_attempts := 2 } "000000" 10 21 rfl (by decide)
      (hash_otp_ne_short "000000" jobX.otp_hash (by decide)) (by decide)

/-- C4 (amended): with ceiling 3, wrong-secret calls on a fresh pending job
return `Invalid OTP` with `attempts_remaining = 2`, then `1`; the third
returns the lockout failure `Too many attempts. Job locked.` — which carries
no `attempts_remaining` field (zero attempts remain) — and a fourth call
returns the locked failure whatever secret it supplies; in general a
no-match call below the ceiling returns `Invalid OTP` with
`attempts_remaining = ceiling - attempts`, the counter counted after the
increment. -/
theorem lockout_sequence (j : Job) (w1 w2 w3 p4 : String) (n1 n2 n3 n4 : Int)
    (u1 u2 u3 u4 : Nat)
    (hpend : j.status = .pending) (hatt : j.otp_attempts = 0)
    (hmax : j.max_otp_attempts = 3)
    (he1 : ¬ j.expires_at < n1) (he2 : ¬ j.expires_at < n2) (he3 : ¬ j.expires_at < n3)
    (hw1 : ¬ hash_otp w1 = j.otp_hash) (hw2 : ¬ hash_otp w2 = j.otp_hash)
    (hw3 : ¬ hash_otp w3 = j.otp_hash) :
    runCalls (some j) [⟨w1, n1, u1⟩, ⟨w2, n2, u2⟩, ⟨w3, n3, u3⟩, ⟨p4, n4, u4⟩] =
      (some { j with otp_attempts := 3, status := .locked },
       [[("success", .jBool false), ("error", .jStr "Invalid OTP"), ("attempts_remaining", .jInt 2)],
        [("success", .jBool false), ("error", .jStr "Invalid OTP"), ("attempts_remaining", .jInt 1)],
        [("success", .jBool false), ("error", .jStr "Too many attempts. Job locked.")],
        lockedObj]) ∧
    (∀ (jc : Job) (p : String) (n : Int) (u : Nat),
        jc.status = .pending → ¬ jc.expires_at < n → ¬ hash_otp p = jc.otp_hash →
        jc.otp_attempts + 1 < jc.max_otp_attempts →
        (verify_otp (some jc) p n u).2 =
          [("success", .jBool false), ("error", .jStr "Invalid OTP"),
           ("attempts_remaining",
            .jInt ((jc.max_otp_attempts : Int) - (jc.otp_attempts : Int) - 1))]) := by
  constructor
  · have h1 := verify_otp_wrong_below j w1 n1 u1 hpend he1 hw1
      (show j.otp_attempts + 1 < j.max_otp_attempts by omega)
    have h2 := verify_otp_wrong_below { j with otp_attempts := j.otp_attempts + 1 }
      w2 n2 u2 hpend he2 hw2
      (show j.otp_attempts + 1 + 1 < j.max_otp_attempts by omega)
    have h3 := verify_otp_wrong_reaches
      { j with otp_attempts := j.otp_attempts + 1 + 1 } w3 n3 u3 hpend he3 hw3
      (show j.otp_attempts + 1 + 1 + 1 ≥ j.max_otp_attempts by omega)
    have h4 := verify_otp_locked
      { j with otp_attempts := j.otp_attempts + 1 + 1 + 1, status := .locked } p4 n4 u4 rfl
    simp only [runCalls, h1, h2, h3, h4]
    simp [hatt, hmax]
  · intro jc p n u h1 h2 h3 h4
    rw [verify_otp_wrong_below jc p n u h1 h2 h3 h4]

/-- C4 witness: the concrete run on `jobX` — three wrong secrets, then a
fourth call — produces exactly the amended result sequence. -/
theorem lockout_sequence_witness :
    jobX.status = .pending ∧ jobX.otp_attempts = 0 ∧ jobX.max_otp_attempts = 3 ∧
    ¬ hash_otp "000000" = jobX.otp_hash ∧ ¬ hash_otp "111111" = jobX.otp_hash ∧
    ¬ hash_otp "222222" = jobX.otp_hash ∧
    (runCalls (some jobX)
        [⟨"000000", 10, 21⟩, ⟨"111111", 20, 22⟩, ⟨"222222", 30, 23⟩, ⟨"123456", 40, 24⟩]).2 =
      [[("success", .jBool false), ("error", .jStr "Invalid OTP"), ("attempts_remaining", .jInt 2)],
       [("success", .jBool false), ("error", .jStr "Invalid OTP"), ("attempts_remaining", .jInt 1)],
       [("success", .jBool false), ("error", .jStr "Too many attempts. Job locked.")],
       lockedObj] := by
  have hw1 : ¬ hash_otp "000000" = jobX.otp_hash :=
    hash_otp_ne_short "000000" jobX.otp_hash (by decide)
  have hw2 : ¬ hash_otp "111111" = jobX.otp_hash :=
    hash_otp_ne_short "111111" jobX.otp_hash (by decide)
  have hw3 : ¬ hash_otp "222222" = jobX.otp_hash :=
    hash_otp_ne_short "222222" jobX.otp_hash (by decide)
  have h := lockout_sequence jobX "000000" "111111" "222222" "123456" 10 20 30 40 21 22 23 24
    rfl rfl rfl (by decide) (by decide) (by decide) hw1 hw2 hw3
  exact ⟨rfl, rfl, rfl, hw1, hw2, hw3, congrArg Prod.snd h.1⟩

/-- C4 counterexample: on the concrete job `jobX` (ceiling 3), the third
wrong-secret call returns the lockout failure with NO `attempts_remaining`
field at all, where the claim promises a Locked failure with
`attemptsRemaining = 0`. -/
theorem lockout_third_call_without_remaining :
    ((runCalls (some jobX)
        [⟨"000000", 10, 21⟩, ⟨"111111", 20, 22⟩, ⟨"222222", 30, 23⟩]).2.getD 2 []) =
      [("success", .jBool false), ("error", .jStr "Too many attempts. Job locked.")] ∧
    List.lookup "attempts_remaining"
      ((runCalls (some jobX)
          [⟨"000000", 10, 21⟩, ⟨"111111", 20, 22⟩, ⟨"222222", 30, 23⟩]).2.getD 2 []) = none := by
  have hw : ∀ w : String, ¬ hash_otp w = jobX.otp_hash := fun w =>
    hash_otp_ne_short w jobX.otp_hash (by decide)
  have h1 := verify_otp_wrong_below jobX "000000" 10 21 rfl (by decide) (hw _)
    (show jobX.otp_attempts + 1 < jobX.max_otp_attempts by decide)
  have h2 := verify_otp_wrong_below { jobX with otp_attempts := jobX.otp_attempts + 1 }
    "111111" 20 22 rfl (by decide) (hw _)
    (show jobX.otp_attempts + 1 + 1 < jobX.max_otp_attempts by decide)
  have h3 := verify_otp_wrong_reaches
    { jobX with otp_attempts := jobX.otp_attempts + 1 + 1 } "222222" 30 23 rfl
    (by decide) (hw _)
    (show jobX.otp_attempts + 1 + 1 + 1 ≥ jobX.max_otp_attempts by decide)
  have hrun : ((runCalls (some jobX)
      [⟨"000000", 10, 21⟩, ⟨"111111", 20, 22⟩, ⟨"222222", 30, 23⟩]).2.getD 2 []) =
      [("success", .jBool false), ("error", .jStr "Too many attempts. Job locked.")] := by
    simp only [runCalls, h1, h2, h3]
    rfl
  exact ⟨hrun, by rw [hrun]; rfl⟩

/-- C7: the handler re-loads the job by the request's id and requires status
printed before serving: an unknown job answers 404 `Job not found`, any
status other than printed answers 403 `Invalid job status`, a storage
download failure answers 500 `Failed to retrieve file`, and every non-200
response body is one of the fixed error constants — none of which carries
any file bytes. -/
theorem render_requires_printed (req : RenderRequest) (be : Backend) (nowIso : String)
    (hfp : req.filePath ≠ "") (hid : req.jobId ≠ "") :
    (be.jobs req.jobId = none →
      printStream (some req) be nowIso =
        { status := 404, body := [("error", .jStr "Job not found")] }) ∧
    (∀ row, be.jobs req.jobId = some row → row.status ≠ .printed →
      printStream (some req) be nowIso =
        { status := 403, body := [("error", .jStr "Invalid job status")] }) ∧
    (∀ row, be.jobs req.jobId = some row → row.status = .printed →
      be.storage req.filePath = none →
      printStream (some req) be nowIso =
        { status := 500, body := [("error", .jStr "Failed to retrieve file")] }) ∧
    ((printStream (some req) be nowIso).status ≠ 200 →
      (printStream (some req) be nowIso).body ∈ errorBodies) := by
  refine ⟨?_, ?_, ?_, ?_⟩
  · intro hnone
    simp [printStream, hfp, hid, hnone]
  · intro row hrow hst
    simp [printStream, hfp, hid, hrow, hst]
  · intro row hrow hst hdl
    simp [printStream, hfp, hid, hrow, hst, hdl]
  · intro hne
    cases hj : be.jobs req.jobId with
    | none => simp [printStream, hfp, hid, hj, errorBodies]
    | some row =>
      by_cases hst : row.status = .printed
      · cases hdl : be.storage req.filePath with
        | none => simp [printStream, hfp, hid, hj, hst, hdl, errorBodies]
        | some fd =>
          exact absurd (by simp [printStream, hfp, hid, hj, hst, hdl]) hne
      · simp [printStream, hfp, hid, hj, hst, errorBodies]

/-- C7 witness: against a backend holding no jobs, a well-formed request is
answered 404 `Job not found`. -/
theorem render_requires_printed_witness :
    reqW.filePath ≠ "" ∧ reqW.jobId ≠ "" ∧ beEmpty.jobs reqW.jobId = none ∧
    printStream (some reqW) beEmpty "2025-01-01T00:00:00.000Z" =
      { status := 404, body := [("error", .jStr "Job not found")] } := by
  refine ⟨by decide, by decide, rfl, ?_⟩
  exact (render_requires_printed reqW beEmpty "2025-01-01T00:00:00.000Z"
    (by decide) (by decide)).1 rfl

/-- C8 (amended): the handler rejects a request whose `filePath` or `jobId`
is missing or empty with 400 `Missing required parameters`, before
consulting the job record or the store — the same response for every
backend; the copy-count bound [1, 50] is not checked by the handler (it is
enforced at job creation by the DB CHECK constraint, part_000:12). -/
theorem render_validates_ids (req : RenderRequest) (nowIso : String)
    (h : req.filePath = "" ∨ req.jobId = "") :
    ∀ be : Backend, printStream (some req) be nowIso =
      { status := 400, body := [("error", .jStr "Missing required parameters")] } := by
  intro be
  simp only [printStream]
  rw [if_pos h]

/-- C8 witness: a request with an empty `filePath` is answered 400 even by a
backend that does hold a printed job. -/
theorem render_validates_ids_witness :
    ({ reqW with filePath := "" } : RenderRequest).filePath = "" ∧
    printStream (some { reqW with filePath := "" }) bePrinted "2025-01-01T00:00:00.000Z" =
      { status := 400, body := [("error", .jStr "Missing required parameters")] } := by
  exact ⟨rfl, render_validates_ids { reqW with filePath := "" } "2025-01-01T00:00:00.000Z"
    (Or.inl rfl) bePrinted⟩

/-- C8 counterexample: a request with copy count 51 — outside the [1, 50]
bound — and well-formed ids is NOT rejected with 400: against a printed job
the handler answers 200 and serves the document. -/
theorem render_copies_not_validated :
    (printStream (some { reqW with copies := 51 }) bePrinted
        "2025-01-01T00:00:00.000Z").status = 200 ∧
    (printStream (some { reqW with copies := 51 }) bePrinted
        "2025-01-01T00:00:00.000Z").status ≠ 400 := by
  exact ⟨rfl, by decide⟩

/-- The two per-byte hex encoders agree on every byte value. -/
theorem jsHexByte_eq_pgHexByte : ∀ b < 256, jsHexByte b = pgHexByte b := by decide

/-- Big-endian byte emission only produces bytes. -/
theorem toBytesBE_lt : ∀ (k n : Nat), ∀ b ∈ toBytesBE k n, b < 256 := by
  intro k
  induction k with
  | zero => intro n b hb; simp [toBytesBE] at hb
  | succ k ih =>
    intro n b hb
    simp only [toBytesBE, List.mem_append, List.mem_singleton] at hb
    rcases hb with h | h
    · exact ih (n / 256) b h
    · subst h; exact Nat.mod_lt _ (by norm_num)

/-- Every SHA-256 digest entry is a byte. -/
theorem sha256Bytes_lt (m : List Nat) : ∀ b ∈ sha256Bytes m, b < 256 := by
  intro b hb
  simp only [sha256Bytes, List.mem_flatMap] at hb
  obtain ⟨x, hx1, hx2⟩ := hb
  exact toBytesBE_lt 4 x b hx2

/-- On byte lists the two hex pipelines coincide. -/
theorem jsEncodeHex_eq_pgEncodeHex (bs : List Nat) (h : ∀ b ∈ bs, b < 256) :
    jsEncodeHex bs = pgEncodeHex bs := by
  unfold jsEncodeHex pgEncodeHex
  have hmap : bs.map jsHexByte = bs.map pgHexByte :=
    List.map_congr_left fun b hb => jsHexByte_eq_pgHexByte b (h b hb)
  rw [hmap]

/-- C9: the client-side digest (`hashOTP`: WebCrypto SHA-256 then per-byte
`toString(16).padStart(2,'0')`) and the server-side digest (`hash_otp`:
`encode(sha256(...),'hex')`) are extensionally equal, so the digest stored at
creation always matches the digest recomputed from the identical plaintext at
verification; and a representative single-character mutation of the secret
"123456" (first digit changed) is a different string whose digest fails to
match the stored one. -/
theorem digests_agree :
    (∀ s : String, hashOTP s = hash_otp s) ∧
    hashOTP "123456" = hash_otp "123456" ∧
    mutateAt "123456" 0 '0' ≠ "123456" ∧
    hash_otp (mutateAt "123456" 0 '0') ≠ hashOTP "123456" := by
  have hext : ∀ s : String, hashOTP s = hash_otp s := by
    intro s
    unfold hashOTP hash_otp
    exact jsEncodeHex_eq_pgEncodeHex _ (sha256Bytes_lt _)
  refine ⟨hext, hext "123456", by decide, ?_⟩
  rw [hext]
  decide

end Genesis
